import Mathlib

/-!
Verification of the options-flow core of the schwab-streaming repository.

The Python sources are shallowly embedded:
* Python floats are modelled as `ℚ` (the code performs only field arithmetic:
  `+`, `-`, `*`, `/`, `abs`, comparisons and `round`).
* `float('inf')`, used as the zero-division sentinel, is modelled by the
  `EFloat` sum type (`fin q` or `posInf`).
* Python `round(x, n)` (round-half-to-even) is modelled by `pyRound`.
* Nullable values (a dict key mapped to `None`, or an absent key read through
  `.get`) are modelled as `Option _`; Python truthiness of a numeric value
  (`None`, `0` and `0.0` are falsy) is modelled by the `pyTruthy…` helpers.
* Database effects and wall-clock reads are made explicit: tables are lists of
  rows, `datetime.now()` becomes a timestamp parameter, and a fallible sqlite
  call becomes an outcome oracle consulted per attempt.
All divisions in the embedding are total (`ℚ` division), mirroring the fact
that the source guards every quotient with a positivity test and substitutes
the infinity sentinel otherwise.
-/

namespace SchwabStreaming

/-- Python truthiness of a nullable float: `None`, and `0.0`, are falsy. -/
def pyTruthyOptQ : Option ℚ → Bool
  | none => false
  | some q => decide (q ≠ 0)

/-- Python truthiness of a nullable int: `None` and `0` are falsy. -/
def pyTruthyOptZ : Option ℤ → Bool
  | none => false
  | some z => decide (z ≠ 0)

/-- Python `round(x, n)`: scale by `10^n`, round half to even, scale back. -/
def pyRound (x : ℚ) (n : ℕ) : ℚ :=
  let scaled : ℚ := x * (10 : ℚ) ^ n
  let f : ℤ := ⌊scaled⌋
  let frac : ℚ := scaled - f
  let r : ℤ :=
    if frac < 1 / 2 then f
    else if 1 / 2 < frac then f + 1
    else if f % 2 = 0 then f else f + 1
  (r : ℚ) / (10 : ℚ) ^ n

/-- A Python float that may carry the `float('inf')` zero-division sentinel. -/
inductive EFloat where
  | fin (q : ℚ)
  | posInf
deriving DecidableEq

/-- Python `round(x, n)` lifted to the sentinel: `round(inf, n)` is `inf`. -/
def EFloat.pyRoundE : EFloat → ℕ → EFloat
  | .fin q, n => .fin (pyRound q n)
  | .posInf, _ => .posInf

/-- `a / b if b > 0 else float('inf')` — the guarded-division idiom of the
flow calculator. -/
def pyDivInf (a b : ℚ) : EFloat :=
  if 0 < b then .fin (a / b) else .posInf

/-!
## Raw contract records (rows of the `options_data` table)

One row per observed contract state, as produced by
`OptionsCollector._create_option_record` and stored by
`OptionsDatabase.insert_options_data`.  Nullable columns are `Option`s.
The columns `data_source` (a constant) and `time_to_expiration` (derived from
the wall clock and never read by any verified path) are omitted.
-/

structure RawRecord where
  symbol : String
  timestamp : ℤ
  option_type : String
  expiration_date : String
  strike_price : ℚ
  mark : Option ℚ
  bid : Option ℚ
  ask : Option ℚ
  last : Option ℚ
  total_volume : Option ℤ
  open_interest : Option ℤ
  delta : Option ℚ
  gamma : Option ℚ
  theta : Option ℚ
  vega : Option ℚ
  rho : Option ℚ
  implied_volatility : Option ℚ
  theoretical_value : Option ℚ
  intrinsic_value : Option ℚ
  extrinsic_value : Option ℚ
  underlying_price : Option ℚ
deriving DecidableEq

/-!
## Flow Calculator: `OptionsFlowCalculator._calculate_flow_metrics`

The single pass of `_calculate_flow_metrics` (flow_calculator.py lines
115-149) accumulates running sums over the record list; `FlowAcc` is the
loop state and `flowStep` is one iteration of the `for record in
options_data` loop, in source order: underlying-price update, open-interest
accumulation over all records, then the `if delta and volume and volume > 0`
guarded flow accumulation.  `record.get('total_volume', 0)` on a key that is
present but `None` yields `None`, so the guard `volume and volume > 0` is
`volume.getD 0 > 0`.
-/

structure FlowAcc where
  call_delta_volume : ℚ
  put_delta_volume : ℚ
  call_volume : ℤ
  put_volume : ℤ
  call_open_interest : ℤ
  put_open_interest : ℤ
  underlying_price : ℚ
deriving DecidableEq

def FlowAcc.init : FlowAcc :=
  { call_delta_volume := 0, put_delta_volume := 0, call_volume := 0,
    put_volume := 0, call_open_interest := 0, put_open_interest := 0,
    underlying_price := 0 }

/-- The source's flow-accumulation guard `delta and volume and volume > 0`
(flow_calculator.py 142): truthy delta, and a positive volume — a `None`
volume is falsy, so `getD 0` captures both of the volume tests. -/
def flowEligible (r : RawRecord) : Bool :=
  pyTruthyOptQ r.delta && decide (0 < r.total_volume.getD 0)

/-- First half of the loop body: the underlying-price update
(`if record.get('underlying_price'): ...`) and the open-interest
accumulation over all records (`+= open_interest or 0`, `None` coerced
to 0). -/
def flowStepBase (acc : FlowAcc) (r : RawRecord) : FlowAcc :=
  let acc1 :=
    if pyTruthyOptQ r.underlying_price then
      { acc with underlying_price := r.underlying_price.getD 0 }
    else acc
  if r.option_type == "CALL" then
    { acc1 with call_open_interest := acc1.call_open_interest + r.open_interest.getD 0 }
  else if r.option_type == "PUT" then
    { acc1 with put_open_interest := acc1.put_open_interest + r.open_interest.getD 0 }
  else acc1

def flowStep (acc : FlowAcc) (r : RawRecord) : FlowAcc :=
  let acc2 := flowStepBase acc r
  -- if delta and volume and volume > 0:
  if flowEligible r then
    if r.option_type == "CALL" then
      { acc2 with
        call_delta_volume :=
          acc2.call_delta_volume + r.delta.getD 0 * (r.total_volume.getD 0 : ℚ),
        call_volume := acc2.call_volume + r.total_volume.getD 0 }
    else if r.option_type == "PUT" then
      { acc2 with
        put_delta_volume :=
          acc2.put_delta_volume + |r.delta.getD 0| * (r.total_volume.getD 0 : ℚ),
        put_volume := acc2.put_volume + r.total_volume.getD 0 }
    else acc2
  else acc2

def flowSums (options_data : List RawRecord) : FlowAcc :=
  options_data.foldl flowStep FlowAcc.init

/-- Result dictionary of `_calculate_flow_metrics` / `_empty_flow_result`.
The wall-clock `timestamp` metadata string and the emoji mirror of
`sentiment` are omitted (pure presentation, read by no verified path). -/
structure FlowResult where
  symbol : String
  timeframe : String
  call_delta_volume : ℚ
  put_delta_volume : ℚ
  net_delta_volume : ℚ
  delta_ratio : EFloat
  call_volume : ℤ
  put_volume : ℤ
  total_volume : ℤ
  call_open_interest : ℤ
  put_open_interest : ℤ
  total_open_interest : ℤ
  put_call_oi_ratio : EFloat
  put_call_ratio : EFloat
  underlying_price : ℚ
  sentiment : String
  sentiment_strength : ℚ
  total_records : ℕ
  data_available : Bool
deriving DecidableEq

/-- `OptionsFlowCalculator._calculate_flow_metrics` (flow_calculator.py
102-205): the single pass followed by the derived-metric computations. -/
def calculateFlowMetrics (symbol : String) (options_data : List RawRecord)
    (timeframe : String) : FlowResult :=
  let s := flowSums options_data
  let net_delta_volume := s.call_delta_volume - s.put_delta_volume
  let delta_ratio := pyDivInf s.call_delta_volume s.put_delta_volume
  let total_volume := s.call_volume + s.put_volume
  let total_open_interest := s.call_open_interest + s.put_open_interest
  let put_call_ratio := pyDivInf (s.put_volume : ℚ) (s.call_volume : ℚ)
  let put_call_oi_ratio := pyDivInf (s.put_open_interest : ℚ) (s.call_open_interest : ℚ)
  let sentiment := if 0 < net_delta_volume then "Bullish" else "Bearish"
  let total_delta_volume := s.call_delta_volume + s.put_delta_volume
  let sentiment_strength :=
    if 0 < total_delta_volume then |net_delta_volume| / total_delta_volume else 0
  { symbol := symbol, timeframe := timeframe,
    call_delta_volume := pyRound s.call_delta_volume 0,
    put_delta_volume := pyRound s.put_delta_volume 0,
    net_delta_volume := pyRound net_delta_volume 0,
    delta_ratio := delta_ratio.pyRoundE 2,
    call_volume := s.call_volume,
    put_volume := s.put_volume,
    total_volume := total_volume,
    call_open_interest := s.call_open_interest,
    put_open_interest := s.put_open_interest,
    total_open_interest := total_open_interest,
    put_call_oi_ratio := put_call_oi_ratio.pyRoundE 2,
    put_call_ratio := put_call_ratio.pyRoundE 2,
    underlying_price := if s.underlying_price ≠ 0 then pyRound s.underlying_price 2 else 0,
    sentiment := sentiment,
    sentiment_strength := pyRound sentiment_strength 3,
    total_records := options_data.length,
    data_available := decide (0 < options_data.length) }

/-- `OptionsFlowCalculator._empty_flow_result` (flow_calculator.py 207-231). -/
def emptyFlowResult (symbol : String) : FlowResult :=
  { symbol := symbol, timeframe := "5m",
    call_delta_volume := 0, put_delta_volume := 0, net_delta_volume := 0,
    delta_ratio := .fin 0,
    call_volume := 0, put_volume := 0, total_volume := 0,
    call_open_interest := 0, put_open_interest := 0, total_open_interest := 0,
    put_call_oi_ratio := .fin 0, put_call_ratio := .fin 0,
    underlying_price := 0,
    sentiment := "No Data", sentiment_strength := 0,
    total_records := 0, data_available := false }

/-- `OptionsFlowCalculator.calculate_current_flow` (flow_calculator.py 18-74),
restricted to its pure part: the rows fetched for the latest timestamp are a
parameter, and an empty fetch short-circuits to `_empty_flow_result`
(`if not rows: return self._empty_flow_result(symbol)`). -/
def calculateCurrentFlow (symbol : String) (rows : List RawRecord) : FlowResult :=
  if rows.isEmpty then emptyFlowResult symbol
  else calculateFlowMetrics symbol rows "latest"

/-!
## Collector: `OptionsCollector` (options_collector.py)

The upstream chain document is consumed through `.get` with per-field
defaults, so each per-contract field is an `Option`.  The document nests
contracts as expiry → strike → list-of-contracts; the collector's triple
loops visit them in that nesting order, which we embed as the already
flattened visit sequences `calls` and `puts`.
-/

structure ApiOption where
  mark : Option ℚ
  bid : Option ℚ
  ask : Option ℚ
  last : Option ℚ
  totalVolume : Option ℤ
  openInterest : Option ℤ
  delta : Option ℚ
  gamma : Option ℚ
  theta : Option ℚ
  vega : Option ℚ
  rho : Option ℚ
  volatility : Option ℚ
  theoreticalValue : Option ℚ
deriving DecidableEq

structure ChainEntry where
  expiry : String
  strike : ℚ
  option : ApiOption
deriving DecidableEq

structure ChainDoc where
  underlyingMark : Option ℚ
  calls : List ChainEntry
  puts : List ChainEntry
deriving DecidableEq

/-- `OptionsCollector._create_option_record` (options_collector.py 174-233):
builds the database record for one contract.  `timestamp` is the collection
timestamp taken at the top of `_calculate_option_metrics`. -/
def createOptionRecord (symbol : String) (timestamp : ℤ) (option_type : String)
    (expiry : String) (strike_price : ℚ) (o : ApiOption)
    (underlying_price : ℚ) : RawRecord :=
  -- expiration_date = expiry.split(':')[0] if ':' in expiry else expiry
  let expiration_date := (expiry.splitOn ":").headD expiry
  let intrinsic_value : ℚ :=
    if option_type == "CALL" then max 0 (underlying_price - strike_price)
    else max 0 (strike_price - underlying_price)
  -- mark = option_data.get("mark", 0.0); extrinsic = mark - intrinsic if mark else None
  let mark0 := o.mark.getD 0
  let extrinsic_value : Option ℚ :=
    if mark0 ≠ 0 then some (mark0 - intrinsic_value) else none
  { symbol := symbol, timestamp := timestamp, option_type := option_type,
    expiration_date := expiration_date, strike_price := strike_price,
    mark := o.mark, bid := o.bid, ask := o.ask, last := o.last,
    total_volume := o.totalVolume, open_interest := o.openInterest,
    delta := o.delta, gamma := o.gamma, theta := o.theta, vega := o.vega,
    rho := o.rho,
    implied_volatility := o.volatility, theoretical_value := o.theoreticalValue,
    intrinsic_value := some intrinsic_value, extrinsic_value := extrinsic_value,
    underlying_price := some underlying_price }

/-- One iteration of the calls loop of
`OptionsCollector._calculate_option_metrics` (options_collector.py 85-97):
`delta = option.get("delta", 0.0); volume = option.get("totalVolume", 0);
if volume > 0: call_delta_vol += delta * volume; call_vol += volume`. -/
def callPass (acc : ℚ × ℤ) (e : ChainEntry) : ℚ × ℤ :=
  let delta := e.option.delta.getD 0
  let volume := e.option.totalVolume.getD 0
  if 0 < volume then (acc.1 + delta * (volume : ℚ), acc.2 + volume) else acc

/-- One iteration of the puts loop (options_collector.py 100-112): the put
delta-volume uses `abs(delta)` since put deltas are negative. -/
def putPass (acc : ℚ × ℤ) (e : ChainEntry) : ℚ × ℤ :=
  let delta := e.option.delta.getD 0
  let volume := e.option.totalVolume.getD 0
  if 0 < volume then (acc.1 + |delta| * (volume : ℚ), acc.2 + volume) else acc

/-- The raw records produced by a collection pass over the chain when the
change-detection cache signals "store" for every contract — the "raw contract
rows are fully stored" premise of the path-equivalence property.  Mirrors the
`raw_records.append(self._create_option_record(...))` calls of
`_calculate_option_metrics`, calls first, then puts. -/
def rawRecordsOf (symbol : String) (timestamp : ℤ) (chain : ChainDoc) : List RawRecord :=
  let underlying_price := chain.underlyingMark.getD 0
  chain.calls.map (fun e =>
    createOptionRecord symbol timestamp "CALL" e.expiry e.strike e.option underlying_price)
  ++ chain.puts.map (fun e =>
    createOptionRecord symbol timestamp "PUT" e.expiry e.strike e.option underlying_price)

/-- `OptionsCollector._count_options_in_data` (options_collector.py 116-128). -/
def countOptionsInData (chain : ChainDoc) : ℕ :=
  chain.calls.length + chain.puts.length

/-- Result dictionary of `OptionsCollector.calculate_flow_metrics`
(options_collector.py 272-309); all numeric fields are unrounded here. -/
structure CollectorMetrics where
  call_delta_volume : ℚ
  put_delta_volume : ℚ
  net_delta_volume : ℚ
  delta_ratio : EFloat
  call_volume : ℤ
  put_volume : ℤ
  total_volume : ℤ
  put_call_ratio : EFloat
  underlying_price : ℚ
  sentiment : String
  sentiment_strength : ℚ
  total_records : ℕ
deriving DecidableEq

/-- `OptionsCollector.calculate_flow_metrics` on a fetched chain document:
the `_calculate_option_metrics` pass followed by the derived metrics. -/
def collectorFlowMetrics (chain : ChainDoc) : CollectorMetrics :=
  -- underlying_price = options_data.get("underlying", {}).get("mark", 0.0)
  let underlying_price := chain.underlyingMark.getD 0
  let c := chain.calls.foldl callPass (0, 0)
  let p := chain.puts.foldl putPass (0, 0)
  let net_delta_volume := c.1 - p.1
  let delta_ratio := pyDivInf c.1 p.1
  let total_volume := c.2 + p.2
  let put_call_ratio := pyDivInf (p.2 : ℚ) (c.2 : ℚ)
  let sentiment := if 0 < net_delta_volume then "Bullish" else "Bearish"
  let sentiment_strength :=
    if 0 < c.1 + p.1 then |net_delta_volume| / (c.1 + p.1) else 0
  { call_delta_volume := c.1, put_delta_volume := p.1,
    net_delta_volume := net_delta_volume, delta_ratio := delta_ratio,
    call_volume := c.2, put_volume := p.2, total_volume := total_volume,
    put_call_ratio := put_call_ratio, underlying_price := underlying_price,
    sentiment := sentiment, sentiment_strength := sentiment_strength,
    total_records := countOptionsInData chain }

/-- A row of the `options_flow_agg` table (schema in
`OptionsDatabase.init_database`, options_database.py 227-269). -/
structure AggRow where
  symbol : String
  timestamp : ℤ
  call_delta_volume : ℚ
  put_delta_volume : ℚ
  net_delta_volume : ℚ
  delta_ratio : EFloat
  call_volume : ℤ
  put_volume : ℤ
  total_volume : ℤ
  call_open_interest : ℤ
  put_open_interest : ℤ
  total_open_interest : ℤ
  put_call_ratio : EFloat
  put_call_oi_ratio : EFloat
  underlying_price : ℚ
  sentiment : String
  sentiment_strength : ℚ
  total_records : ℕ
  collection_timestamp : ℤ
deriving DecidableEq

/-- The aggregation dictionary built by `OptionsCollector.store_aggregated_data`
(options_collector.py 311-355); `timestamp` stands for the
`datetime.now()` millisecond stamp taken there.  The open-interest fields and
`put_call_oi_ratio` are hard-coded to zero in this path ("Could calculate if
needed"). -/
def storeAggregatedData (symbol : String) (timestamp : ℤ)
    (m : CollectorMetrics) : AggRow :=
  { symbol := symbol, timestamp := timestamp,
    call_delta_volume := m.call_delta_volume,
    put_delta_volume := m.put_delta_volume,
    net_delta_volume := m.net_delta_volume,
    delta_ratio := m.delta_ratio,
    call_volume := m.call_volume, put_volume := m.put_volume,
    total_volume := m.total_volume,
    call_open_interest := 0, put_open_interest := 0, total_open_interest := 0,
    put_call_ratio := m.put_call_ratio, put_call_oi_ratio := .fin 0,
    underlying_price := m.underlying_price,
    sentiment := m.sentiment, sentiment_strength := m.sentiment_strength,
    total_records := m.total_records, collection_timestamp := timestamp }

/-- The `agg_data` dictionary built by
`OptionsFlowCalculator.calculate_and_store_aggregation`
(flow_calculator.py 311-332) from a `_calculate_flow_metrics` result. -/
def backfillAggData (symbol : String) (timestamp : ℤ) (fm : FlowResult) : AggRow :=
  { symbol := symbol, timestamp := timestamp,
    call_delta_volume := fm.call_delta_volume,
    put_delta_volume := fm.put_delta_volume,
    net_delta_volume := fm.net_delta_volume,
    delta_ratio := fm.delta_ratio,
    call_volume := fm.call_volume, put_volume := fm.put_volume,
    total_volume := fm.total_volume,
    call_open_interest := fm.call_open_interest,
    put_open_interest := fm.put_open_interest,
    total_open_interest := fm.total_open_interest,
    put_call_ratio := fm.put_call_ratio,
    put_call_oi_ratio := fm.put_call_oi_ratio,
    underlying_price := fm.underlying_price,
    sentiment := fm.sentiment, sentiment_strength := fm.sentiment_strength,
    total_records := fm.total_records, collection_timestamp := timestamp }

/-- Live path for one snapshot: `calculate_flow_metrics` followed by
`store_aggregated_data`, with the collection timestamp made explicit. -/
def liveAggRow (symbol : String) (timestamp : ℤ) (chain : ChainDoc) : AggRow :=
  storeAggregatedData symbol timestamp (collectorFlowMetrics chain)

/-- Backfill path for the same snapshot with its raw rows fully stored:
`calculate_and_store_aggregation` re-runs `_calculate_flow_metrics` over the
stored raw rows for the exact (symbol, timestamp). -/
def backfillAggRow (symbol : String) (timestamp : ℤ) (chain : ChainDoc) : AggRow :=
  backfillAggData symbol timestamp
    (calculateFlowMetrics symbol (rawRecordsOf symbol timestamp chain) "5m")

/-!
## Change-Detection Cache: `_get_option_hash` / `_should_store_option_record`
(options_collector.py 130-172)

`_get_option_hash` md5-hashes the string
`symbol|expiry|strike|type|mark|bid|ask|last|totalVolume|openInterest|delta|gamma|theta|vega|volatility`,
where each field is read as `option_data.get(field, 0)` before being
rendered with `str`.  The digest is modelled as the tuple of those defaulted
field values (md5 treated as injective on the rendered string): an absent
field and an explicit 0 both render as `"0"` and therefore collide, which
the `getD 0` in the model reproduces.  The model keeps exactly the fields
the source hashes — note that `rho` and `theoreticalValue` are NOT among
them.  The cache `self.last_option_hashes` is an association list keyed by
`(symbol, expiry, strike_price, option_type)`.
-/

structure OptionKey where
  symbol : String
  expiry : String
  strike_price : ℚ
  option_type : String
deriving DecidableEq

/-- The hashed content of `_get_option_hash`: the contract identity plus the
eleven `key_fields`, in source order.  Each field is the value of
`option_data.get(_, 0)`, so a missing field is indistinguishable from an
explicit 0 — exactly as their `str` renderings coincide in the md5 input. -/
structure OptionHash where
  key : OptionKey
  mark : ℚ
  bid : ℚ
  ask : ℚ
  last : ℚ
  totalVolume : ℤ
  openInterest : ℤ
  delta : ℚ
  gamma : ℚ
  theta : ℚ
  vega : ℚ
  volatility : ℚ
deriving DecidableEq

def getOptionHash (k : OptionKey) (o : ApiOption) : OptionHash :=
  { key := k, mark := o.mark.getD 0, bid := o.bid.getD 0, ask := o.ask.getD 0,
    last := o.last.getD 0,
    totalVolume := o.totalVolume.getD 0, openInterest := o.openInterest.getD 0,
    delta := o.delta.getD 0, gamma := o.gamma.getD 0, theta := o.theta.getD 0,
    vega := o.vega.getD 0, volatility := o.volatility.getD 0 }

/-- The in-process fingerprint cache `self.last_option_hashes`. -/
abbrev HashCache := List (OptionKey × OptionHash)

def cacheLookup (cache : HashCache) (k : OptionKey) : Option OptionHash :=
  match cache.find? (fun p => p.1 == k) with
  | some p => some p.2
  | none => none

/-- `self.last_option_hashes[option_key] = current_hash`: bind (or rebind)
the key. -/
def cacheInsert (cache : HashCache) (k : OptionKey) (h : OptionHash) : HashCache :=
  (k, h) :: cache.filter (fun p => p.1 != k)

/-- `OptionsCollector._should_store_option_record` (options_collector.py
155-172); returns the decision and the updated cache. -/
def shouldStoreOptionRecord (store_raw_data_enabled : Bool) (cache : HashCache)
    (k : OptionKey) (o : ApiOption) : Bool × HashCache :=
  if !store_raw_data_enabled then (false, cache)
  else
    let current_hash := getOptionHash k o
    -- last_hash = self.last_option_hashes.get(option_key)
    -- if last_hash == current_hash: return False
    if cacheLookup cache k == some current_hash then (false, cache)
    else (true, cacheInsert cache k current_hash)

/-!
## Snapshot Store: `OptionsDatabase` (options_database.py)

Tables are lists of rows.  A fallible sqlite call is driven by an outcome
oracle `ℕ → Option DBErr` giving, per attempt index, `none` for success or
the error raised; `DBErr.locked` is an `OperationalError` whose message
contains "database is locked", `DBErr.other` is any other exception.
-/

inductive DBErr where
  | locked
  | other
deriving DecidableEq

/-- The `for attempt in range(self.max_retries)` retry loop shared verbatim
by `_execute_read` (74-109) and `_execute_write` (111-154): a successful
attempt returns; a lock error with attempts remaining sleeps
`0.1 * (2 ** attempt)` seconds and retries; any other error — or a lock
error on the final attempt — is raised at once.  Falling off the loop
re-raises `last_exception` (reachable only with `max_retries = 0`, where no
attempt ran).  Result: the outcome plus the list of back-off sleeps in
milliseconds. -/
def retryFrom (outcomes : ℕ → Option DBErr) (max_retries : ℕ) (attempt : ℕ) :
    ℕ → Except DBErr Unit × List ℕ
  | 0 => (.error .locked, [])
  | remaining + 1 =>
    match outcomes attempt with
    | none => (.ok (), [])
    | some .locked =>
      if attempt < max_retries - 1 then
        let r := retryFrom outcomes max_retries (attempt + 1) remaining
        (r.1, 100 * 2 ^ attempt :: r.2)
      else (.error .locked, [])
    | some .other => (.error .other, [])

/-- `OptionsDatabase._execute_read`: the retry loop from attempt 0. -/
def executeRead (outcomes : ℕ → Option DBErr) (max_retries : ℕ) :
    Except DBErr Unit × List ℕ :=
  retryFrom outcomes max_retries 0 max_retries

/-- `OptionsDatabase._execute_write`: identical retry skeleton; the
`BEGIN IMMEDIATE` / commit / rollback bracket around the operation is folded
into the per-attempt outcome (an attempt succeeds exactly when its
transaction commits). -/
def executeWrite (outcomes : ℕ → Option DBErr) (max_retries : ℕ) :
    Except DBErr Unit × List ℕ :=
  retryFrom outcomes max_retries 0 max_retries

/-- Natural key of an `options_data` row: the schema's
`UNIQUE(symbol, timestamp, option_type, expiration_date, strike_price)`. -/
def rawKey (r : RawRecord) : String × ℤ × String × String × ℚ :=
  (r.symbol, r.timestamp, r.option_type, r.expiration_date, r.strike_price)

/-- The per-record loop body of `OptionsDatabase.insert_options_data`
(options_database.py 301-355): an `INSERT` that hits the uniqueness
constraint raises `IntegrityError`, counted as a duplicate and skipped; any
other row-level error (`bad r = true` in the model) is logged and skipped;
otherwise the row is appended and counted.  Accumulators mirror
`inserted_count` / `duplicate_count`. -/
def insertRecordsLoop (bad : RawRecord → Bool) (tbl : List RawRecord)
    (inserted_count duplicate_count : ℕ) :
    List RawRecord → List RawRecord × ℕ × ℕ
  | [] => (tbl, inserted_count, duplicate_count)
  | r :: rest =>
    if bad r then
      -- except Exception: logger.error(...); continue
      insertRecordsLoop bad tbl inserted_count duplicate_count rest
    else if tbl.any (fun q => rawKey q == rawKey r) then
      -- except sqlite3.IntegrityError: duplicate_count += 1; continue
      insertRecordsLoop bad tbl inserted_count (duplicate_count + 1) rest
    else
      insertRecordsLoop bad (tbl ++ [r]) (inserted_count + 1) duplicate_count rest

/-- `OptionsDatabase.insert_options_data` (options_database.py 288-357),
with the committed write assumed (its retry wrapper is `executeWrite`):
`if not options_records: return 0, 0`, else run the batch loop. -/
def insertOptionsData (bad : RawRecord → Bool) (tbl : List RawRecord)
    (options_records : List RawRecord) : List RawRecord × ℕ × ℕ :=
  if options_records.isEmpty then (tbl, 0, 0)
  else insertRecordsLoop bad tbl 0 0 options_records

/-- `INSERT OR REPLACE INTO options_flow_agg` keyed by the schema's
`UNIQUE(symbol, timestamp)`: drop any row with the same key, add the new
row. -/
def insertOrReplaceAgg (tbl : List AggRow) (r : AggRow) : List AggRow :=
  tbl.filter (fun q => !(q.symbol == r.symbol && q.timestamp == r.timestamp)) ++ [r]

/-- `OptionsDatabase.insert_flow_aggregation` (options_database.py 510-559):
the upsert through `_execute_write`, wrapped in
`try: ... except Exception: return False`.  On any storage failure —
including exhausted lock retries — the exception is swallowed, the table is
left as rolled back, and `False` is returned; `True` is returned exactly
when the transaction committed. -/
def insertFlowAggregation (outcomes : ℕ → Option DBErr) (max_retries : ℕ)
    (tbl : List AggRow) (r : AggRow) : Bool × List AggRow :=
  match executeWrite outcomes max_retries with
  | (.ok _, _) => (true, insertOrReplaceAgg tbl r)
  | (.error _, _) => (false, tbl)

/-!
## Backfill Driver: backfill_options_aggregation.py

State of one (symbol, date) unit of work: the distinct raw timestamps
(`get_timestamps_for_symbol_date`) and the timestamps already carrying an
aggregate row (`check_existing_aggregations` returns the count of the
latter).  `calculate_and_store_aggregation` is driven by a per-timestamp
outcome: `ok` (returned True and upserted), `failed` (returned False), or
`raised` (threw; caught by the driver's `except … continue`).
-/

structure BackfillState where
  rawTs : List ℤ
  aggTs : List ℤ
deriving DecidableEq

inductive TsOutcome where
  | ok
  | failed
  | raised
deriving DecidableEq

/-- Upserting the aggregate for timestamp `t` adds `t` to the aggregated set
(`INSERT OR REPLACE`, so a re-store of a present timestamp changes nothing
key-wise). -/
def storeAggTs (agg : List ℤ) (t : ℤ) : List ℤ :=
  if t ∈ agg then agg else agg ++ [t]

/-- `process_symbol_date` (backfill_options_aggregation.py 168-206): try
every timestamp in order; count successes and failures; an exception from
one timestamp is caught and the loop continues. -/
def processSymbolDate (outcome : ℤ → TsOutcome) (agg : List ℤ) :
    List ℤ → List ℤ × ℕ × ℕ
  | [] => (agg, 0, 0)
  | t :: ts =>
    match outcome t with
    | .ok =>
      let r := processSymbolDate outcome (storeAggTs agg t) ts
      (r.1, r.2.1 + 1, r.2.2)
    | .failed =>
      let r := processSymbolDate outcome agg ts
      (r.1, r.2.1, r.2.2 + 1)
    | .raised =>
      let r := processSymbolDate outcome agg ts
      (r.1, r.2.1, r.2.2 + 1)

/-- The per-date step of `main`'s processing loop
(backfill_options_aggregation.py 327-368): no raw timestamps ⇒ nothing to
do; `existing_count > 0` ⇒ "Skipping - already has aggregated records";
otherwise process every raw timestamp.  Returns the updated state and the
(successful, failed) counts. -/
def backfillDate (outcome : ℤ → TsOutcome) (st : BackfillState) :
    BackfillState × ℕ × ℕ :=
  if st.rawTs.isEmpty then (st, 0, 0)
  else if 0 < st.aggTs.length then (st, 0, 0)
  else
    let r := processSymbolDate outcome st.aggTs st.rawTs
    ({ st with aggTs := r.1 }, r.2.1, r.2.2)

/-!
## Spec-side sum formulas

Closed-form sums against which the single-pass accumulator is compared.
`claimVolumeSum` follows the claim's words for the flow-volume filter
(volume > 0 and delta non-null); `flowEligible` is the source's actual
guard `delta and volume and volume > 0`, which additionally rejects
`delta == 0`.
-/

/-- Claimed filter for the flow-volume sums, as the claim words it:
"records whose volume is greater than 0 and whose delta is non-null". -/
def claimEligible (r : RawRecord) : Bool :=
  decide (0 < r.total_volume.getD 0) && !(r.delta == none)

def claimVolumeSum (t : String) (rs : List RawRecord) : ℤ :=
  ((rs.filter fun r => r.option_type == t && claimEligible r).map
    fun r => r.total_volume.getD 0).sum

def specVolumeSum (t : String) (rs : List RawRecord) : ℤ :=
  ((rs.filter fun r => r.option_type == t && flowEligible r).map
    fun r => r.total_volume.getD 0).sum

def specDeltaVolumeSum (rs : List RawRecord) : ℚ :=
  ((rs.filter fun r => r.option_type == "CALL" && flowEligible r).map
    fun r => r.delta.getD 0 * (r.total_volume.getD 0 : ℚ)).sum

def specAbsDeltaVolumeSum (rs : List RawRecord) : ℚ :=
  ((rs.filter fun r => r.option_type == "PUT" && flowEligible r).map
    fun r => |r.delta.getD 0| * (r.total_volume.getD 0 : ℚ)).sum

def specOpenInterestSum (t : String) (rs : List RawRecord) : ℤ :=
  ((rs.filter fun r => r.option_type == t).map
    fun r => r.open_interest.getD 0).sum

/-! Characterization of one `flowStep` per accumulator component. -/

lemma flowStepBase_call_volume (acc : FlowAcc) (r : RawRecord) :
    (flowStepBase acc r).call_volume = acc.call_volume := by
  simp only [flowStepBase]
  split_ifs <;> rfl

lemma flowStepBase_put_volume (acc : FlowAcc) (r : RawRecord) :
    (flowStepBase acc r).put_volume = acc.put_volume := by
  simp only [flowStepBase]
  split_ifs <;> rfl

lemma flowStepBase_call_delta_volume (acc : FlowAcc) (r : RawRecord) :
    (flowStepBase acc r).call_delta_volume = acc.call_delta_volume := by
  simp only [flowStepBase]
  split_ifs <;> rfl

lemma flowStepBase_put_delta_volume (acc : FlowAcc) (r : RawRecord) :
    (flowStepBase acc r).put_delta_volume = acc.put_delta_volume := by
  simp only [flowStepBase]
  split_ifs <;> rfl

lemma flowStepBase_call_open_interest (acc : FlowAcc) (r : RawRecord) :
    (flowStepBase acc r).call_open_interest = acc.call_open_interest +
      (if r.option_type == "CALL" then r.open_interest.getD 0 else 0) := by
  simp only [flowStepBase]
  split_ifs <;> simp_all

lemma flowStepBase_put_open_interest (acc : FlowAcc) (r : RawRecord) :
    (flowStepBase acc r).put_open_interest = acc.put_open_interest +
      (if r.option_type == "PUT" then r.open_interest.getD 0 else 0) := by
  simp only [flowStepBase]
  split_ifs with h1 h2 <;> simp_all

lemma flowStep_call_volume (acc : FlowAcc) (r : RawRecord) :
    (flowStep acc r).call_volume = acc.call_volume +
      (if r.option_type == "CALL" && flowEligible r then r.total_volume.getD 0 else 0) := by
  simp only [flowStep]
  split_ifs with h1 h2 h3 <;>
    simp_all [flowStepBase_call_volume]

lemma flowStep_put_volume (acc : FlowAcc) (r : RawRecord) :
    (flowStep acc r).put_volume = acc.put_volume +
      (if r.option_type == "PUT" && flowEligible r then r.total_volume.getD 0 else 0) := by
  simp only [flowStep]
  split_ifs with h1 h2 h3 <;>
    simp_all [flowStepBase_put_volume]

lemma flowStep_call_delta_volume (acc : FlowAcc) (r : RawRecord) :
    (flowStep acc r).call_delta_volume = acc.call_delta_volume +
      (if r.option_type == "CALL" && flowEligible r then
        r.delta.getD 0 * (r.total_volume.getD 0 : ℚ) else 0) := by
  simp only [flowStep]
  split_ifs with h1 h2 h3 <;>
    simp_all [flowStepBase_call_delta_volume]

lemma flowStep_put_delta_volume (acc : FlowAcc) (r : RawRecord) :
    (flowStep acc r).put_delta_volume = acc.put_delta_volume +
      (if r.option_type == "PUT" && flowEligible r then
        |r.delta.getD 0| * (r.total_volume.getD 0 : ℚ) else 0) := by
  simp only [flowStep]
  split_ifs with h1 h2 h3 <;>
    simp_all [flowStepBase_put_delta_volume]

lemma flowStep_call_open_interest (acc : FlowAcc) (r : RawRecord) :
    (flowStep acc r).call_open_interest = acc.call_open_interest +
      (if r.option_type == "CALL" then r.open_interest.getD 0 else 0) := by
  simp only [flowStep]
  split_ifs <;> simp_all [flowStepBase_call_open_interest]

lemma flowStep_put_open_interest (acc : FlowAcc) (r : RawRecord) :
    (flowStep acc r).put_open_interest = acc.put_open_interest +
      (if r.option_type == "PUT" then r.open_interest.getD 0 else 0) := by
  simp only [flowStep]
  split_ifs <;> simp_all [flowStepBase_put_open_interest]

/-! Folding the pass equals the closed-form sums. -/

lemma foldl_flow_call_volume (rs : List RawRecord) :
    ∀ acc : FlowAcc, (rs.foldl flowStep acc).call_volume =
      acc.call_volume + specVolumeSum "CALL" rs := by
  induction rs with
  | nil => intro acc; simp [specVolumeSum]
  | cons r rs ih =>
    intro acc
    simp only [List.foldl_cons, ih, flowStep_call_volume, specVolumeSum,
      List.filter_cons]
    split_ifs <;> simp_all [specVolumeSum] <;> omega

lemma foldl_flow_put_volume (rs : List RawRecord) :
    ∀ acc : FlowAcc, (rs.foldl flowStep acc).put_volume =
      acc.put_volume + specVolumeSum "PUT" rs := by
  induction rs with
  | nil => intro acc; simp [specVolumeSum]
  | cons r rs ih =>
    intro acc
    simp only [List.foldl_cons, ih, flowStep_put_volume, specVolumeSum,
      List.filter_cons]
    split_ifs <;> simp_all [specVolumeSum] <;> omega

lemma foldl_flow_call_delta_volume (rs : List RawRecord) :
    ∀ acc : FlowAcc, (rs.foldl flowStep acc).call_delta_volume =
      acc.call_delta_volume + specDeltaVolumeSum rs := by
  induction rs with
  | nil => intro acc; simp [specDeltaVolumeSum]
  | cons r rs ih =>
    intro acc
    simp only [List.foldl_cons, ih, flowStep_call_delta_volume,
      specDeltaVolumeSum, List.filter_cons]
    split_ifs <;> simp_all [specDeltaVolumeSum] <;> ring

lemma foldl_flow_put_delta_volume (rs : List RawRecord) :
    ∀ acc : FlowAcc, (rs.foldl flowStep acc).put_delta_volume =
      acc.put_delta_volume + specAbsDeltaVolumeSum rs := by
  induction rs with
  | nil => intro acc; simp [specAbsDeltaVolumeSum]
  | cons r rs ih =>
    intro acc
    simp only [List.foldl_cons, ih, flowStep_put_delta_volume,
      specAbsDeltaVolumeSum, List.filter_cons]
    split_ifs <;> simp_all [specAbsDeltaVolumeSum] <;> ring

lemma foldl_flow_call_open_interest (rs : List RawRecord) :
    ∀ acc : FlowAcc, (rs.foldl flowStep acc).call_open_interest =
      acc.call_open_interest + specOpenInterestSum "CALL" rs := by
  induction rs with
  | nil => intro acc; simp [specOpenInterestSum]
  | cons r rs ih =>
    intro acc
    simp only [List.foldl_cons, ih, flowStep_call_open_interest,
      specOpenInterestSum, List.filter_cons]
    split_ifs <;> simp_all [specOpenInterestSum] <;> omega

lemma foldl_flow_put_open_interest (rs : List RawRecord) :
    ∀ acc : FlowAcc, (rs.foldl flowStep acc).put_open_interest =
      acc.put_open_interest + specOpenInterestSum "PUT" rs := by
  induction rs with
  | nil => intro acc; simp [specOpenInterestSum]
  | cons r rs ih =>
    intro acc
    simp only [List.foldl_cons, ih, flowStep_put_open_interest,
      specOpenInterestSum, List.filter_cons]
    split_ifs <;> simp_all [specOpenInterestSum] <;> omega

lemma flowSums_call_volume (rs : List RawRecord) :
    (flowSums rs).call_volume = specVolumeSum "CALL" rs := by
  simpa [flowSums, FlowAcc.init] using foldl_flow_call_volume rs FlowAcc.init

lemma flowSums_put_volume (rs : List RawRecord) :
    (flowSums rs).put_volume = specVolumeSum "PUT" rs := by
  simpa [flowSums, FlowAcc.init] using foldl_flow_put_volume rs FlowAcc.init

lemma flowSums_call_delta_volume (rs : List RawRecord) :
    (flowSums rs).call_delta_volume = specDeltaVolumeSum rs := by
  simpa [flowSums, FlowAcc.init] using foldl_flow_call_delta_volume rs FlowAcc.init

lemma flowSums_put_delta_volume (rs : List RawRecord) :
    (flowSums rs).put_delta_volume = specAbsDeltaVolumeSum rs := by
  simpa [flowSums, FlowAcc.init] using foldl_flow_put_delta_volume rs FlowAcc.init

lemma flowSums_call_open_interest (rs : List RawRecord) :
    (flowSums rs).call_open_interest = specOpenInterestSum "CALL" rs := by
  simpa [flowSums, FlowAcc.init] using foldl_flow_call_open_interest rs FlowAcc.init

lemma flowSums_put_open_interest (rs : List RawRecord) :
    (flowSums rs).put_open_interest = specOpenInterestSum "PUT" rs := by
  simpa [flowSums, FlowAcc.init] using foldl_flow_put_open_interest rs FlowAcc.init

/-!
## Collector-pass characterizations and the raw-record bridge
-/

@[simp] lemma createOptionRecord_option_type (s : String) (ts : ℤ) (t e : String)
    (st : ℚ) (o : ApiOption) (u : ℚ) :
    (createOptionRecord s ts t e st o u).option_type = t := rfl

@[simp] lemma createOptionRecord_delta (s : String) (ts : ℤ) (t e : String)
    (st : ℚ) (o : ApiOption) (u : ℚ) :
    (createOptionRecord s ts t e st o u).delta = o.delta := rfl

@[simp] lemma createOptionRecord_total_volume (s : String) (ts : ℤ) (t e : String)
    (st : ℚ) (o : ApiOption) (u : ℚ) :
    (createOptionRecord s ts t e st o u).total_volume = o.totalVolume := rfl

@[simp] lemma createOptionRecord_open_interest (s : String) (ts : ℤ) (t e : String)
    (st : ℚ) (o : ApiOption) (u : ℚ) :
    (createOptionRecord s ts t e st o u).open_interest = o.openInterest := rfl

/-- Volume contribution of the collector's per-contract loop iteration. -/
def collVolSum (es : List ChainEntry) : ℤ :=
  (es.map fun e =>
    if 0 < e.option.totalVolume.getD 0 then e.option.totalVolume.getD 0 else 0).sum

def collCallDVSum (es : List ChainEntry) : ℚ :=
  (es.map fun e =>
    if 0 < e.option.totalVolume.getD 0 then
      e.option.delta.getD 0 * (e.option.totalVolume.getD 0 : ℚ) else 0).sum

def collPutDVSum (es : List ChainEntry) : ℚ :=
  (es.map fun e =>
    if 0 < e.option.totalVolume.getD 0 then
      |e.option.delta.getD 0| * (e.option.totalVolume.getD 0 : ℚ) else 0).sum

lemma foldl_callPass (es : List ChainEntry) :
    ∀ p : ℚ × ℤ, es.foldl callPass p = (p.1 + collCallDVSum es, p.2 + collVolSum es) := by
  induction es with
  | nil => intro p; simp [collCallDVSum, collVolSum]
  | cons e es ih =>
    intro p
    simp only [List.foldl_cons, ih, callPass, collCallDVSum, collVolSum,
      List.map_cons, List.sum_cons]
    split_ifs <;> simp [collCallDVSum, collVolSum] <;> constructor <;> ring

lemma foldl_putPass (es : List ChainEntry) :
    ∀ p : ℚ × ℤ, es.foldl putPass p = (p.1 + collPutDVSum es, p.2 + collVolSum es) := by
  induction es with
  | nil => intro p; simp [collPutDVSum, collVolSum]
  | cons e es ih =>
    intro p
    simp only [List.foldl_cons, ih, putPass, collPutDVSum, collVolSum,
      List.map_cons, List.sum_cons]
    split_ifs <;> simp [collPutDVSum, collVolSum] <;> constructor <;> ring

/-- For a fully stored snapshot whose contracts all carry a truthy delta, the
backfill filter on the CALL records degenerates to the collector's
volume-positivity test. -/
lemma specVolumeSum_call_map (sym : String) (ts : ℤ) (u : ℚ) (es : List ChainEntry)
    (h : ∀ e ∈ es, pyTruthyOptQ e.option.delta = true) :
    specVolumeSum "CALL"
      (es.map fun e => createOptionRecord sym ts "CALL" e.expiry e.strike e.option u)
      = collVolSum es := by
  induction es with
  | nil => simp [specVolumeSum, collVolSum]
  | cons e es ih =>
    have he := h e (List.mem_cons_self e es)
    have hrest := ih (fun x hx => h x (List.mem_cons_of_mem e hx))
    simp only [specVolumeSum, collVolSum, flowEligible, List.map_cons, List.filter_cons,
      List.sum_cons] at hrest ⊢
    by_cases hv : 0 < e.option.totalVolume.getD 0 <;>
      simp [he, hv, hrest]

lemma specVolumeSum_put_map (sym : String) (ts : ℤ) (u : ℚ) (es : List ChainEntry)
    (h : ∀ e ∈ es, pyTruthyOptQ e.option.delta = true) :
    specVolumeSum "PUT"
      (es.map fun e => createOptionRecord sym ts "PUT" e.expiry e.strike e.option u)
      = collVolSum es := by
  induction es with
  | nil => simp [specVolumeSum, collVolSum]
  | cons e es ih =>
    have he := h e (List.mem_cons_self e es)
    have hrest := ih (fun x hx => h x (List.mem_cons_of_mem e hx))
    simp only [specVolumeSum, collVolSum, flowEligible, List.map_cons, List.filter_cons,
      List.sum_cons] at hrest ⊢
    by_cases hv : 0 < e.option.totalVolume.getD 0 <;>
      simp [he, hv, hrest]

lemma specVolumeSum_mismatch (t t2 : String) (sym : String) (ts : ℤ) (u : ℚ)
    (es : List ChainEntry) (hne : (t2 == t) = false) :
    specVolumeSum t
      (es.map fun e => createOptionRecord sym ts t2 e.expiry e.strike e.option u)
      = 0 := by
  induction es with
  | nil => simp [specVolumeSum]
  | cons e es ih =>
    simp only [List.map_cons, specVolumeSum, List.filter_cons] at *
    simp [hne, ih]

lemma specDeltaVolumeSum_call_map (sym : String) (ts : ℤ) (u : ℚ)
    (es : List ChainEntry)
    (h : ∀ e ∈ es, pyTruthyOptQ e.option.delta = true) :
    specDeltaVolumeSum
      (es.map fun e => createOptionRecord sym ts "CALL" e.expiry e.strike e.option u)
      = collCallDVSum es := by
  induction es with
  | nil => simp [specDeltaVolumeSum, collCallDVSum]
  | cons e es ih =>
    have he := h e (List.mem_cons_self e es)
    have hrest := ih (fun x hx => h x (List.mem_cons_of_mem e hx))
    simp only [specDeltaVolumeSum, collCallDVSum, flowEligible, List.map_cons, List.filter_cons,
      List.sum_cons] at hrest ⊢
    by_cases hv : 0 < e.option.totalVolume.getD 0 <;>
      simp [he, hv, hrest]

lemma specDeltaVolumeSum_put_map (sym : String) (ts : ℤ) (u : ℚ)
    (es : List ChainEntry) :
    specDeltaVolumeSum
      (es.map fun e => createOptionRecord sym ts "PUT" e.expiry e.strike e.option u)
      = 0 := by
  induction es with
  | nil => simp [specDeltaVolumeSum]
  | cons e es ih =>
    simp only [List.map_cons, specDeltaVolumeSum, List.filter_cons] at *
    simp [ih]

lemma specAbsDeltaVolumeSum_put_map (sym : String) (ts : ℤ) (u : ℚ)
    (es : List ChainEntry)
    (h : ∀ e ∈ es, pyTruthyOptQ e.option.delta = true) :
    specAbsDeltaVolumeSum
      (es.map fun e => createOptionRecord sym ts "PUT" e.expiry e.strike e.option u)
      = collPutDVSum es := by
  induction es with
  | nil => simp [specAbsDeltaVolumeSum, collPutDVSum]
  | cons e es ih =>
    have he := h e (List.mem_cons_self e es)
    have hrest := ih (fun x hx => h x (List.mem_cons_of_mem e hx))
    simp only [specAbsDeltaVolumeSum, collPutDVSum, flowEligible, List.map_cons, List.filter_cons,
      List.sum_cons] at hrest ⊢
    by_cases hv : 0 < e.option.totalVolume.getD 0 <;>
      simp [he, hv, hrest]

lemma specAbsDeltaVolumeSum_call_map (sym : String) (ts : ℤ) (u : ℚ)
    (es : List ChainEntry) :
    specAbsDeltaVolumeSum
      (es.map fun e => createOptionRecord sym ts "CALL" e.expiry e.strike e.option u)
      = 0 := by
  induction es with
  | nil => simp [specAbsDeltaVolumeSum]
  | cons e es ih =>
    simp only [List.map_cons, specAbsDeltaVolumeSum, List.filter_cons] at *
    simp [ih]

lemma specVolumeSum_append (t : String) (l1 l2 : List RawRecord) :
    specVolumeSum t (l1 ++ l2) = specVolumeSum t l1 + specVolumeSum t l2 := by
  simp [specVolumeSum]

lemma specDeltaVolumeSum_append (l1 l2 : List RawRecord) :
    specDeltaVolumeSum (l1 ++ l2) = specDeltaVolumeSum l1 + specDeltaVolumeSum l2 := by
  simp [specDeltaVolumeSum]

lemma specAbsDeltaVolumeSum_append (l1 l2 : List RawRecord) :
    specAbsDeltaVolumeSum (l1 ++ l2) =
      specAbsDeltaVolumeSum l1 + specAbsDeltaVolumeSum l2 := by
  simp [specAbsDeltaVolumeSum]

/-!
## Concrete inputs used by counterexamples and witnesses
-/

/-- A blank raw record, specialized below.  Concrete inputs are built from it
by field updates. -/
def blankRecord : RawRecord :=
  { symbol := "SPY", timestamp := 1000, option_type := "CALL",
    expiration_date := "2025-07-18", strike_price := 500,
    mark := none, bid := none, ask := none, last := none,
    total_volume := none, open_interest := none,
    delta := none, gamma := none, theta := none, vega := none, rho := none,
    implied_volatility := none, theoretical_value := none,
    intrinsic_value := none, extrinsic_value := none,
    underlying_price := some 500 }

/-- A CALL contract that traded 5 lots with a delta recorded as exactly 0.0:
its delta is non-null, so the claimed filter counts its volume, but the
source guard `if delta and volume and volume > 0` rejects it. -/
def zeroDeltaCall : RawRecord :=
  { blankRecord with total_volume := some 5, open_interest := some 10,
                     delta := some 0 }

/-- C2, counterexample: on the single-record list `[zeroDeltaCall]` the claim
predicts `call_volume = 5` (volume 5 > 0 and delta `0.0` is non-null), but
`_calculate_flow_metrics` returns `call_volume = 0`, because the guard
`if delta and volume and volume > 0` also rejects a delta of exactly zero
(`0.0` is falsy in Python). -/
theorem c2_flow_sums_counterexample :
    (calculateFlowMetrics "SPY" [zeroDeltaCall] "5m").call_volume = 0 ∧
    claimVolumeSum "CALL" [zeroDeltaCall] = 5 ∧
    zeroDeltaCall.delta ≠ none ∧ zeroDeltaCall.total_volume.getD 0 > 0 := by
  refine ⟨by decide, by decide, by decide, by decide⟩

/-- C2, amended: `call_open_interest` / `put_open_interest` sum open interest
over all records of the respective type (zero-volume ones included), while
the four flow sums range over exactly the records with a positive volume and
a delta that is non-null AND nonzero (the delta-weighted fields carrying the
pass's final `round(_, 0)`). -/
theorem c2_flow_sums (symbol timeframe : String) (rs : List RawRecord) :
    (calculateFlowMetrics symbol rs timeframe).call_open_interest =
        specOpenInterestSum "CALL" rs ∧
    (calculateFlowMetrics symbol rs timeframe).put_open_interest =
        specOpenInterestSum "PUT" rs ∧
    (calculateFlowMetrics symbol rs timeframe).call_volume = specVolumeSum "CALL" rs ∧
    (calculateFlowMetrics symbol rs timeframe).put_volume = specVolumeSum "PUT" rs ∧
    (calculateFlowMetrics symbol rs timeframe).call_delta_volume =
        pyRound (specDeltaVolumeSum rs) 0 ∧
    (calculateFlowMetrics symbol rs timeframe).put_delta_volume =
        pyRound (specAbsDeltaVolumeSum rs) 0 := by
  refine ⟨?_, ?_, ?_, ?_, ?_, ?_⟩ <;>
    simp [calculateFlowMetrics, flowSums_call_open_interest,
      flowSums_put_open_interest, flowSums_call_volume, flowSums_put_volume,
      flowSums_call_delta_volume, flowSums_put_delta_volume]

/-- A regular CALL contract: delta 1.0, volume 10; yields a zero put
delta-volume sum alongside a positive call delta-volume sum. -/
def plainCall : RawRecord :=
  { blankRecord with total_volume := some 10, delta := some 1 }

/-- C7: whenever the accumulated `put_delta_volume` is zero (with a positive
`call_delta_volume`), `delta_ratio` is the positive-infinity sentinel, and
analogously `put_call_ratio` for a zero `call_volume` and
`put_call_oi_ratio` for a zero `call_open_interest`.  Every quotient in the
embedding is guarded exactly as in the source (`pyDivInf`), so no
division-by-zero error exists on any input. -/
theorem c7_zero_division_safety (symbol timeframe : String)
    (rs1 rs2 rs3 : List RawRecord)
    (h1 : (flowSums rs1).put_delta_volume = 0)
    (h2 : 0 < (flowSums rs1).call_delta_volume)
    (h3 : (flowSums rs2).call_volume = 0)
    (h4 : (flowSums rs3).call_open_interest = 0) :
    (calculateFlowMetrics symbol rs1 timeframe).delta_ratio = EFloat.posInf ∧
    (calculateFlowMetrics symbol rs2 timeframe).put_call_ratio = EFloat.posInf ∧
    (calculateFlowMetrics symbol rs3 timeframe).put_call_oi_ratio = EFloat.posInf := by
  refine ⟨?_, ?_, ?_⟩ <;>
    simp [calculateFlowMetrics, pyDivInf, h1, h3, h4, EFloat.pyRoundE]

/-- C7 witness: a snapshot holding one traded call (delta 1.0, volume 10)
has `put_delta_volume = 0 < call_delta_volume` and gets the infinity
sentinel; the empty snapshot discharges the other two zero hypotheses. -/
theorem c7_zero_division_safety_witness :
    (calculateFlowMetrics "SPY" [plainCall] "5m").delta_ratio = EFloat.posInf ∧
    (calculateFlowMetrics "SPY" [] "5m").put_call_ratio = EFloat.posInf ∧
    (calculateFlowMetrics "SPY" [] "5m").put_call_oi_ratio = EFloat.posInf :=
  c7_zero_division_safety "SPY" "5m" [plainCall] [] []
    (by simp [flowSums, flowStep, flowStepBase, flowEligible, pyTruthyOptQ,
      plainCall, blankRecord, FlowAcc.init])
    (by simp [flowSums, flowStep, flowStepBase, flowEligible, pyTruthyOptQ,
      plainCall, blankRecord, FlowAcc.init])
    (by decide) (by decide)

/-- C8: a request for which no contract records are available returns
`_empty_flow_result`: every numeric field zero, the `"No Data"` sentiment
sentinel, and `data_available = false`.  The embedding is total, so no
exception is possible. -/
theorem c8_empty_input (symbol : String) :
    calculateCurrentFlow symbol [] = emptyFlowResult symbol ∧
    (emptyFlowResult symbol).sentiment = "No Data" ∧
    (emptyFlowResult symbol).data_available = false ∧
    (emptyFlowResult symbol).call_delta_volume = 0 ∧
    (emptyFlowResult symbol).put_delta_volume = 0 ∧
    (emptyFlowResult symbol).net_delta_volume = 0 ∧
    (emptyFlowResult symbol).delta_ratio = EFloat.fin 0 ∧
    (emptyFlowResult symbol).call_volume = 0 ∧
    (emptyFlowResult symbol).put_volume = 0 ∧
    (emptyFlowResult symbol).total_volume = 0 ∧
    (emptyFlowResult symbol).call_open_interest = 0 ∧
    (emptyFlowResult symbol).put_open_interest = 0 ∧
    (emptyFlowResult symbol).total_open_interest = 0 ∧
    (emptyFlowResult symbol).put_call_oi_ratio = EFloat.fin 0 ∧
    (emptyFlowResult symbol).put_call_ratio = EFloat.fin 0 ∧
    (emptyFlowResult symbol).underlying_price = 0 ∧
    (emptyFlowResult symbol).sentiment_strength = 0 ∧
    (emptyFlowResult symbol).total_records = 0 := by
  refine ⟨rfl, rfl, rfl, rfl, rfl, rfl, rfl, rfl, rfl, rfl, rfl, rfl, rfl,
    rfl, rfl, rfl, rfl, rfl⟩

/-!
## C1: live path vs backfill path
-/

def blankApiOption : ApiOption :=
  { mark := none, bid := none, ask := none, last := none,
    totalVolume := none, openInterest := none,
    delta := none, gamma := none, theta := none, vega := none, rho := none,
    volatility := none, theoreticalValue := none }

/-- A snapshot with two calls: one with delta 0.0, volume 5, open interest
10, one with delta 1.0, volume 5.  Its raw rows are fully stored, yet the
two paths disagree on open interest (live hard-codes 0) and on call volume
(the backfill pass drops the zero-delta contract). -/
def divergingChain : ChainDoc :=
  { underlyingMark := some 100,
    calls :=
      [ { expiry := "2025-07-18:5", strike := 100,
          option := { blankApiOption with
            totalVolume := some 5, openInterest := some 10, delta := some 0 } },
        { expiry := "2025-07-18:5", strike := 101,
          option := { blankApiOption with
            totalVolume := some 5, delta := some 1 } } ],
    puts := [] }

/-- C1, counterexample: for the fully stored snapshot `divergingChain` the
aggregate stored by the live collector path and the one re-derived by the
backfill path are NOT numerically identical: the live path stores
`call_open_interest = 0` (hard-coded) where the backfill computes 10, and
`call_volume = 10` where the backfill computes 5 (it drops the zero-delta
contract). -/
theorem c1_path_equivalence_counterexample :
    (liveAggRow "SPY" 1000 divergingChain).call_open_interest = 0 ∧
    (backfillAggRow "SPY" 1000 divergingChain).call_open_interest = 10 ∧
    (liveAggRow "SPY" 1000 divergingChain).total_open_interest = 0 ∧
    (backfillAggRow "SPY" 1000 divergingChain).total_open_interest = 10 ∧
    (liveAggRow "SPY" 1000 divergingChain).call_volume = 10 ∧
    (backfillAggRow "SPY" 1000 divergingChain).call_volume = 5 := by
  refine ⟨by decide, by decide, by decide, by decide, by decide, by decide⟩

/-- C1, amended: for a fully stored snapshot in which every contract carries
a non-null, nonzero delta, the two paths agree on call/put/total volume,
record count and sentiment, and each rounded backfill field equals the
corresponding unrounded live field rounded; the open-interest fields and
`put_call_oi_ratio` are not compared — the live path hard-codes them to
zero. -/
theorem c1_path_equivalence (symbol : String) (ts : ℤ) (chain : ChainDoc)
    (h : ∀ e ∈ chain.calls ++ chain.puts, pyTruthyOptQ e.option.delta = true) :
    (liveAggRow symbol ts chain).call_volume =
        (backfillAggRow symbol ts chain).call_volume ∧
    (liveAggRow symbol ts chain).put_volume =
        (backfillAggRow symbol ts chain).put_volume ∧
    (liveAggRow symbol ts chain).total_volume =
        (backfillAggRow symbol ts chain).total_volume ∧
    (liveAggRow symbol ts chain).total_records =
        (backfillAggRow symbol ts chain).total_records ∧
    (liveAggRow symbol ts chain).sentiment =
        (backfillAggRow symbol ts chain).sentiment ∧
    (backfillAggRow symbol ts chain).call_delta_volume =
        pyRound (liveAggRow symbol ts chain).call_delta_volume 0 ∧
    (backfillAggRow symbol ts chain).put_delta_volume =
        pyRound (liveAggRow symbol ts chain).put_delta_volume 0 ∧
    (backfillAggRow symbol ts chain).net_delta_volume =
        pyRound (liveAggRow symbol ts chain).net_delta_volume 0 ∧
    (backfillAggRow symbol ts chain).delta_ratio =
        (liveAggRow symbol ts chain).delta_ratio.pyRoundE 2 ∧
    (backfillAggRow symbol ts chain).put_call_ratio =
        (liveAggRow symbol ts chain).put_call_ratio.pyRoundE 2 ∧
    (backfillAggRow symbol ts chain).sentiment_strength =
        pyRound (liveAggRow symbol ts chain).sentiment_strength 3 := by
  have hc : ∀ e ∈ chain.calls, pyTruthyOptQ e.option.delta = true :=
    fun e he => h e (List.mem_append_left _ he)
  have hp : ∀ e ∈ chain.puts, pyTruthyOptQ e.option.delta = true :=
    fun e he => h e (List.mem_append_right _ he)
  set u := chain.underlyingMark.getD 0 with hu
  have hcv : (flowSums (rawRecordsOf symbol ts chain)).call_volume =
      collVolSum chain.calls := by
    rw [flowSums_call_volume]
    simp only [rawRecordsOf, ← hu, specVolumeSum_append]
    rw [specVolumeSum_call_map symbol ts u chain.calls hc,
      specVolumeSum_mismatch "CALL" "PUT" symbol ts u chain.puts (by decide)]
    ring
  have hpv : (flowSums (rawRecordsOf symbol ts chain)).put_volume =
      collVolSum chain.puts := by
    rw [flowSums_put_volume]
    simp only [rawRecordsOf, ← hu, specVolumeSum_append]
    rw [specVolumeSum_put_map symbol ts u chain.puts hp,
      specVolumeSum_mismatch "PUT" "CALL" symbol ts u chain.calls (by decide)]
    ring
  have hcdv : (flowSums (rawRecordsOf symbol ts chain)).call_delta_volume =
      collCallDVSum chain.calls := by
    rw [flowSums_call_delta_volume]
    simp only [rawRecordsOf, ← hu, specDeltaVolumeSum_append]
    rw [specDeltaVolumeSum_call_map symbol ts u chain.calls hc,
      specDeltaVolumeSum_put_map symbol ts u chain.puts]
    ring
  have hpdv : (flowSums (rawRecordsOf symbol ts chain)).put_delta_volume =
      collPutDVSum chain.puts := by
    rw [flowSums_put_delta_volume]
    simp only [rawRecordsOf, ← hu, specAbsDeltaVolumeSum_append]
    rw [specAbsDeltaVolumeSum_put_map symbol ts u chain.puts hp,
      specAbsDeltaVolumeSum_call_map symbol ts u chain.calls]
    ring
  have hlen : (rawRecordsOf symbol ts chain).length =
      chain.calls.length + chain.puts.length := by
    simp [rawRecordsOf]
  refine ⟨?_, ?_, ?_, ?_, ?_, ?_, ?_, ?_, ?_, ?_, ?_⟩ <;>
    simp [liveAggRow, backfillAggRow, storeAggregatedData, backfillAggData,
      collectorFlowMetrics, calculateFlowMetrics, countOptionsInData,
      foldl_callPass, foldl_putPass, hcv, hpv, hcdv, hpdv, hlen]

/-- A fully regular snapshot: one call with delta 1.0, volume 10, one put
with (absolute-valued) delta 2.0, volume 4 — every delta truthy. -/
def regularChain : ChainDoc :=
  { underlyingMark := some 100,
    calls :=
      [ { expiry := "2025-07-18:5", strike := 100,
          option := { blankApiOption with
            totalVolume := some 10, openInterest := some 3, delta := some 1 } } ],
    puts :=
      [ { expiry := "2025-07-18:5", strike := 99,
          option := { blankApiOption with
            totalVolume := some 4, delta := some 2 } } ] }

/-- C1 witness: the amended equivalence instantiated on `regularChain`. -/
theorem c1_path_equivalence_witness :
    (liveAggRow "SPY" 1000 regularChain).call_volume =
        (backfillAggRow "SPY" 1000 regularChain).call_volume ∧
    (liveAggRow "SPY" 1000 regularChain).put_volume =
        (backfillAggRow "SPY" 1000 regularChain).put_volume ∧
    (liveAggRow "SPY" 1000 regularChain).total_volume =
        (backfillAggRow "SPY" 1000 regularChain).total_volume ∧
    (liveAggRow "SPY" 1000 regularChain).total_records =
        (backfillAggRow "SPY" 1000 regularChain).total_records ∧
    (liveAggRow "SPY" 1000 regularChain).sentiment =
        (backfillAggRow "SPY" 1000 regularChain).sentiment ∧
    (backfillAggRow "SPY" 1000 regularChain).call_delta_volume =
        pyRound (liveAggRow "SPY" 1000 regularChain).call_delta_volume 0 ∧
    (backfillAggRow "SPY" 1000 regularChain).put_delta_volume =
        pyRound (liveAggRow "SPY" 1000 regularChain).put_delta_volume 0 ∧
    (backfillAggRow "SPY" 1000 regularChain).net_delta_volume =
        pyRound (liveAggRow "SPY" 1000 regularChain).net_delta_volume 0 ∧
    (backfillAggRow "SPY" 1000 regularChain).delta_ratio =
        (liveAggRow "SPY" 1000 regularChain).delta_ratio.pyRoundE 2 ∧
    (backfillAggRow "SPY" 1000 regularChain).put_call_ratio =
        (liveAggRow "SPY" 1000 regularChain).put_call_ratio.pyRoundE 2 ∧
    (backfillAggRow "SPY" 1000 regularChain).sentiment_strength =
        pyRound (liveAggRow "SPY" 1000 regularChain).sentiment_strength 3 :=
  c1_path_equivalence "SPY" 1000 regularChain (by decide)

/-!
## C3: change-detection cache
-/

lemma cacheLookup_cacheInsert_self (cache : HashCache) (k : OptionKey)
    (h : OptionHash) : cacheLookup (cacheInsert cache k h) k = some h := by
  simp [cacheLookup, cacheInsert, List.find?]

def cacheKey0 : OptionKey :=
  { symbol := "SPY", expiry := "2025-07-18:5", strike_price := 100,
    option_type := "CALL" }

/-- A contract observation whose rho is 1.0. -/
def rhoA : ApiOption := { blankApiOption with rho := some 1 }

/-- The same observation with rho changed to 2.0 — every other field equal. -/
def rhoB : ApiOption := { blankApiOption with rho := some 2 }

/-- C3, counterexample: rho is a Greek, hence a tracked field per the claim,
yet `_get_option_hash` does not hash it: after storing `rhoA`, a second call
whose only change is rho returns `false` — the claim predicts `true`. -/
theorem c3_dedup_cache_counterexample :
    rhoB.rho ≠ rhoA.rho ∧
    getOptionHash cacheKey0 rhoB = getOptionHash cacheKey0 rhoA ∧
    (shouldStoreOptionRecord true [] cacheKey0 rhoA).1 = true ∧
    (shouldStoreOptionRecord true
      (shouldStoreOptionRecord true [] cacheKey0 rhoA).2 cacheKey0 rhoB).1 = false := by
  refine ⟨by decide, by decide, by decide, by decide⟩

/-- C3, amended: with raw storage enabled and a previously unseen contract
identity, the first call returns `true` and records the fingerprint; an
identical second call returns `false` and leaves the cache untouched; a call
whose hashed field values differ — the hashed fields being mark/bid/ask/last,
totalVolume, openInterest, delta/gamma/theta/vega (rho excluded) and
volatility, each read as `.get(field, 0)` so that an absent field equals an
explicit 0 — returns `true` again; and the stored fingerprint is updated
exactly on the calls that return `true`. -/
theorem c3_dedup_cache (cache : HashCache) (k : OptionKey) (o o2 : ApiOption)
    (h1 : cacheLookup cache k = none)
    (h2 : getOptionHash k o2 ≠ getOptionHash k o) :
    (shouldStoreOptionRecord true cache k o).1 = true ∧
    cacheLookup (shouldStoreOptionRecord true cache k o).2 k =
        some (getOptionHash k o) ∧
    (shouldStoreOptionRecord true
        (shouldStoreOptionRecord true cache k o).2 k o).1 = false ∧
    (shouldStoreOptionRecord true
        (shouldStoreOptionRecord true cache k o).2 k o).2 =
      (shouldStoreOptionRecord true cache k o).2 ∧
    (shouldStoreOptionRecord true
        (shouldStoreOptionRecord true cache k o).2 k o2).1 = true ∧
    cacheLookup (shouldStoreOptionRecord true
        (shouldStoreOptionRecord true cache k o).2 k o2).2 k =
      some (getOptionHash k o2) := by
  have hfirst : shouldStoreOptionRecord true cache k o =
      (true, cacheInsert cache k (getOptionHash k o)) := by
    simp [shouldStoreOptionRecord, h1]
  have hl1 : cacheLookup (cacheInsert cache k (getOptionHash k o)) k =
      some (getOptionHash k o) := cacheLookup_cacheInsert_self cache k _
  have hsecond : shouldStoreOptionRecord true
      (cacheInsert cache k (getOptionHash k o)) k o =
      (false, cacheInsert cache k (getOptionHash k o)) := by
    simp [shouldStoreOptionRecord, hl1]
  have hthird : shouldStoreOptionRecord true
      (cacheInsert cache k (getOptionHash k o)) k o2 =
      (true, cacheInsert (cacheInsert cache k (getOptionHash k o)) k
        (getOptionHash k o2)) := by
    simp [shouldStoreOptionRecord, hl1, Ne.symm h2]
  refine ⟨by rw [hfirst], ?_, ?_, ?_, ?_, ?_⟩
  · rw [hfirst]; exact hl1
  · rw [hfirst]
    show (shouldStoreOptionRecord true (cacheInsert cache k (getOptionHash k o)) k o).1 = false
    rw [hsecond]
  · rw [hfirst]
    show (shouldStoreOptionRecord true (cacheInsert cache k (getOptionHash k o)) k o).2 =
      (true, cacheInsert cache k (getOptionHash k o)).2
    rw [hsecond]
  · rw [hfirst]
    show (shouldStoreOptionRecord true (cacheInsert cache k (getOptionHash k o)) k o2).1 = true
    rw [hthird]
  · rw [hfirst]
    show cacheLookup (shouldStoreOptionRecord true
      (cacheInsert cache k (getOptionHash k o)) k o2).2 k = some (getOptionHash k o2)
    rw [hthird]
    exact cacheLookup_cacheInsert_self _ k _

/-- An observation differing from `blankApiOption` in one hashed field. -/
def volChanged : ApiOption := { blankApiOption with totalVolume := some 7 }

/-- C3 witness: the amended cache behaviour on a fresh key, with
`blankApiOption` observed first and a volume change second. -/
theorem c3_dedup_cache_witness :
    (shouldStoreOptionRecord true [] cacheKey0 blankApiOption).1 = true ∧
    cacheLookup (shouldStoreOptionRecord true [] cacheKey0 blankApiOption).2 cacheKey0 =
        some (getOptionHash cacheKey0 blankApiOption) ∧
    (shouldStoreOptionRecord true
        (shouldStoreOptionRecord true [] cacheKey0 blankApiOption).2 cacheKey0
        blankApiOption).1 = false ∧
    (shouldStoreOptionRecord true
        (shouldStoreOptionRecord true [] cacheKey0 blankApiOption).2 cacheKey0
        blankApiOption).2 =
      (shouldStoreOptionRecord true [] cacheKey0 blankApiOption).2 ∧
    (shouldStoreOptionRecord true
        (shouldStoreOptionRecord true [] cacheKey0 blankApiOption).2 cacheKey0
        volChanged).1 = true ∧
    cacheLookup (shouldStoreOptionRecord true
        (shouldStoreOptionRecord true [] cacheKey0 blankApiOption).2 cacheKey0
        volChanged).2 cacheKey0 =
      some (getOptionHash cacheKey0 volChanged) :=
  c3_dedup_cache [] cacheKey0 blankApiOption volChanged (by decide) (by decide)

/-!
## C4 / C6 / C10: store retry discipline and the aggregate upsert
-/

/-- An oracle whose every attempt raises "database is locked". -/
def lockedOracle : ℕ → Option DBErr := fun _ => some .locked

/-- An oracle whose first attempt raises a non-lock error. -/
def otherOracle : ℕ → Option DBErr := fun _ => some .other

/-- An oracle whose first attempt succeeds. -/
def okOracle : ℕ → Option DBErr := fun _ => none

lemma retryFrom_ok (outcomes : ℕ → Option DBErr) (n attempt m : ℕ)
    (h : outcomes attempt = none) :
    retryFrom outcomes n attempt (m + 1) = (.ok (), []) := by
  simp [retryFrom, h]

lemma executeWrite_okOracle (n : ℕ) (hn : 0 < n) :
    executeWrite okOracle n = (.ok (), []) := by
  obtain ⟨m, rfl⟩ := Nat.exists_eq_add_of_lt hn
  simpa [executeWrite] using retryFrom_ok okOracle (0 + m + 1) 0 (0 + m) rfl

lemma retryFrom_all_locked (outcomes : ℕ → Option DBErr) (n : ℕ)
    (hlock : ∀ i, outcomes i = some .locked) :
    ∀ remaining attempt, attempt + remaining = n → 0 < remaining →
      retryFrom outcomes n attempt remaining =
        (.error .locked, (List.range (remaining - 1)).map fun j => 100 * 2 ^ (attempt + j)) := by
  intro remaining
  induction remaining with
  | zero => intro attempt _ hpos; omega
  | succ m ih =>
    intro attempt hsum _
    simp only [retryFrom, hlock attempt]
    by_cases hlt : attempt < n - 1
    · have hm : 0 < m := by omega
      rw [if_pos hlt, ih (attempt + 1) (by omega) hm]
      obtain ⟨m2, rfl⟩ := Nat.exists_eq_add_of_lt hm
      simp only [Nat.add_sub_cancel, Nat.succ_sub_one, List.range_succ_eq_map,
        List.map_cons, List.map_map]
      refine congrArg _ (congrArg _ ?_)
      apply List.map_congr_left
      intro j _
      simp only [Function.comp]
      have hexp : attempt + 1 + j = attempt + Nat.succ j := by omega
      rw [hexp]
    · have hm : m = 0 := by omega
      subst hm
      rw [if_neg hlt]
      simp

lemma retryFrom_error_all_locked (outcomes : ℕ → Option DBErr)
    (hlock : ∀ i, outcomes i = some .locked) (n : ℕ) :
    ∀ remaining attempt, (retryFrom outcomes n attempt remaining).1 = .error .locked := by
  intro remaining
  induction remaining with
  | zero => intro attempt; rfl
  | succ m ih =>
    intro attempt
    simp only [retryFrom, hlock attempt]
    by_cases hlt : attempt < n - 1
    · rw [if_pos hlt]; exact ih (attempt + 1)
    · rw [if_neg hlt]

/-- C6: if every attempt fails with "database is locked", both
`_execute_read` and `_execute_write` run all `max_retries` attempts with
back-off sleeps of 100·2ⁱ ms between consecutive attempts, then re-raise the
lock error; a non-lock error on the first attempt is raised immediately,
with no retry and no sleep. -/
theorem c6_retry_discipline (outcomes outcomes2 : ℕ → Option DBErr) (n : ℕ)
    (hn : 0 < n) (hlock : ∀ i, outcomes i = some .locked)
    (hother : outcomes2 0 = some .other) :
    executeWrite outcomes n =
      (.error .locked, (List.range (n - 1)).map fun i => 100 * 2 ^ i) ∧
    executeRead outcomes n =
      (.error .locked, (List.range (n - 1)).map fun i => 100 * 2 ^ i) ∧
    executeWrite outcomes2 n = (.error .other, []) ∧
    executeRead outcomes2 n = (.error .other, []) := by
  have hfail : retryFrom outcomes n 0 n =
      (.error .locked, (List.range (n - 1)).map fun j => 100 * 2 ^ (0 + j)) :=
    retryFrom_all_locked outcomes n hlock n 0 (by omega) hn
  have hfail2 : retryFrom outcomes n 0 n =
      (.error .locked, (List.range (n - 1)).map fun j => 100 * 2 ^ j) := by
    rw [hfail]; simp
  have hoth : retryFrom outcomes2 n 0 n = (.error .other, []) := by
    obtain ⟨m, rfl⟩ := Nat.exists_eq_add_of_lt hn
    simp [retryFrom, hother]
  exact ⟨hfail2, hfail2, hoth, hoth⟩

/-- C6 witness: with the default `max_retries = 3` an all-locked oracle
yields three attempts with sleeps of 100 ms and 200 ms before the lock error
is re-raised, and a non-lock oracle raises at once. -/
theorem c6_retry_discipline_witness :
    executeWrite lockedOracle 3 = (.error .locked, [100, 200]) ∧
    executeRead lockedOracle 3 = (.error .locked, [100, 200]) ∧
    executeWrite otherOracle 3 = (.error .other, []) ∧
    executeRead otherOracle 3 = (.error .other, []) := by
  have h := c6_retry_discipline lockedOracle otherOracle 3 (by decide)
    (fun i => rfl) rfl
  have he : (List.range (3 - 1)).map (fun i => 100 * 2 ^ i) = [100, 200] := by decide
  rw [he] at h
  exact h

/-- C10: `insert_flow_aggregation` swallows every storage exception —
for any outcome oracle it returns a boolean, `true` exactly when the write
transaction committed; on failure (including exhausted lock retries, as with
an all-locked oracle) it returns `false` and the table is as rolled back. -/
theorem c10_insert_flow_aggregation_no_raise (outcomes : ℕ → Option DBErr)
    (n : ℕ) (tbl : List AggRow) (r : AggRow) :
    ((insertFlowAggregation outcomes n tbl r).1 = true ↔
      (executeWrite outcomes n).1 = .ok ()) ∧
    ((insertFlowAggregation outcomes n tbl r).1 = false →
      (insertFlowAggregation outcomes n tbl r).2 = tbl) ∧
    ((∀ i, outcomes i = some .locked) →
      (insertFlowAggregation outcomes n tbl r).1 = false) := by
  refine ⟨?_, ?_, ?_⟩
  · rcases hE : executeWrite outcomes n with ⟨res, sleeps⟩
    cases res with
    | ok u => cases u; simp [insertFlowAggregation, hE]
    | error e => simp [insertFlowAggregation, hE]
  · rcases hE : executeWrite outcomes n with ⟨res, sleeps⟩
    cases res with
    | ok u => cases u; simp [insertFlowAggregation, hE]
    | error e => simp [insertFlowAggregation, hE]
  · intro hlock
    have herr : (executeWrite outcomes n).1 = .error .locked :=
      retryFrom_error_all_locked outcomes hlock n n 0
    rcases hE : executeWrite outcomes n with ⟨res, sleeps⟩
    rw [hE] at herr
    simp only at herr
    subst herr
    simp [insertFlowAggregation, hE]

/-- A concrete aggregate row used by the upsert witnesses. -/
def aggRowA : AggRow :=
  { symbol := "SPY", timestamp := 1000,
    call_delta_volume := 5, put_delta_volume := 3, net_delta_volume := 2,
    delta_ratio := .fin 2, call_volume := 10, put_volume := 4,
    total_volume := 14, call_open_interest := 0, put_open_interest := 0,
    total_open_interest := 0, put_call_ratio := .fin 0,
    put_call_oi_ratio := .fin 0, underlying_price := 100,
    sentiment := "Bullish", sentiment_strength := 0, total_records := 2,
    collection_timestamp := 1000 }

/-- The same aggregate key as `aggRowA` with a different payload. -/
def aggRowB : AggRow := { aggRowA with call_volume := 7, total_volume := 11 }

/-- C10 witness: with the default three retries all locked, the upsert of
`aggRowA` into the empty table reports `false` and writes nothing. -/
theorem c10_insert_flow_aggregation_no_raise_witness :
    (insertFlowAggregation lockedOracle 3 [] aggRowA).1 = false ∧
    (insertFlowAggregation lockedOracle 3 [] aggRowA).2 = [] := by
  have h := c10_insert_flow_aggregation_no_raise lockedOracle 3 [] aggRowA
  have hfalse := h.2.2 (fun i => rfl)
  exact ⟨hfalse, h.2.1 hfalse⟩

lemma filter_insertOrReplaceAgg (tbl : List AggRow) (r : AggRow) :
    (insertOrReplaceAgg tbl r).filter
      (fun q => q.symbol == r.symbol && q.timestamp == r.timestamp) = [r] := by
  simp only [insertOrReplaceAgg, List.filter_append]
  rw [List.filter_filter]
  have h1 : tbl.filter
      (fun q => (q.symbol == r.symbol && q.timestamp == r.timestamp) &&
        !(q.symbol == r.symbol && q.timestamp == r.timestamp)) = [] := by
    apply List.filter_eq_nil_iff.mpr
    intro q _
    cases q.symbol == r.symbol && q.timestamp == r.timestamp <;> simp
  rw [h1]
  simp

/-- C4: the aggregate upsert is last-writer-wins — inserting two rows with
the same (symbol, timestamp) key and different payloads (under a committing
oracle with the default positive retry budget) leaves exactly one row for
that key, carrying the second payload, and the second call reports success. -/
theorem c4_upsert_last_writer_wins (n : ℕ) (hn : 0 < n) (tbl : List AggRow)
    (r1 r2 : AggRow) (hsym : r1.symbol = r2.symbol)
    (hts : r1.timestamp = r2.timestamp) (hne : r1 ≠ r2) :
    (insertFlowAggregation okOracle n
      (insertFlowAggregation okOracle n tbl r1).2 r2).1 = true ∧
    (insertFlowAggregation okOracle n
        (insertFlowAggregation okOracle n tbl r1).2 r2).2.filter
      (fun q => q.symbol == r2.symbol && q.timestamp == r2.timestamp) = [r2] := by
  have hw := executeWrite_okOracle n hn
  have h1 : insertFlowAggregation okOracle n tbl r1 =
      (true, insertOrReplaceAgg tbl r1) := by
    simp [insertFlowAggregation, hw]
  have h2 : insertFlowAggregation okOracle n (insertOrReplaceAgg tbl r1) r2 =
      (true, insertOrReplaceAgg (insertOrReplaceAgg tbl r1) r2) := by
    simp [insertFlowAggregation, hw]
  rw [h1]
  show (insertFlowAggregation okOracle n (insertOrReplaceAgg tbl r1) r2).1 = true ∧
    (insertFlowAggregation okOracle n (insertOrReplaceAgg tbl r1) r2).2.filter
      (fun q => q.symbol == r2.symbol && q.timestamp == r2.timestamp) = [r2]
  rw [h2]
  exact ⟨rfl, filter_insertOrReplaceAgg _ r2⟩

/-- C4 witness: upserting `aggRowA` then `aggRowB` (same key, different
payload) into the empty table succeeds and leaves exactly `[aggRowB]` under
that key. -/
theorem c4_upsert_last_writer_wins_witness :
    (insertFlowAggregation okOracle 3
      (insertFlowAggregation okOracle 3 [] aggRowA).2 aggRowB).1 = true ∧
    (insertFlowAggregation okOracle 3
        (insertFlowAggregation okOracle 3 [] aggRowA).2 aggRowB).2.filter
      (fun q => q.symbol == aggRowB.symbol && q.timestamp == aggRowB.timestamp) =
      [aggRowB] :=
  c4_upsert_last_writer_wins 3 (by decide) [] aggRowA aggRowB rfl rfl
    (by intro h; exact absurd (congrArg AggRow.call_volume h) (by decide))

/-!
## C5: raw-record batch insert
-/

lemma insertRecordsLoop_shift (bad : RawRecord → Bool) (l : List RawRecord) :
    ∀ (tbl : List RawRecord) (i d : ℕ),
      insertRecordsLoop bad tbl i d l =
        ((insertRecordsLoop bad tbl 0 0 l).1,
          i + (insertRecordsLoop bad tbl 0 0 l).2.1,
          d + (insertRecordsLoop bad tbl 0 0 l).2.2) := by
  induction l with
  | nil => intro tbl i d; simp [insertRecordsLoop]
  | cons r rest ih =>
    intro tbl i d
    simp only [insertRecordsLoop]
    split_ifs with h1 h2
    · exact ih tbl i d
    · rw [ih tbl i (d + 1), ih tbl 0 (0 + 1)]
      dsimp only
      simp only [Prod.mk.injEq]
      exact ⟨trivial, by omega, by omega⟩
    · rw [ih (tbl ++ [r]) (i + 1) d, ih (tbl ++ [r]) (0 + 1) 0]
      dsimp only
      simp only [Prod.mk.injEq]
      exact ⟨trivial, by omega, by omega⟩

lemma insertRecordsLoop_extends (bad : RawRecord → Bool) (l : List RawRecord) :
    ∀ tbl : List RawRecord,
      ∃ s, (insertRecordsLoop bad tbl 0 0 l).1 = tbl ++ s := by
  induction l with
  | nil => intro tbl; exact ⟨[], by simp [insertRecordsLoop]⟩
  | cons r rest ih =>
    intro tbl
    simp only [insertRecordsLoop]
    split_ifs with h1 h2
    · exact ih tbl
    · rw [insertRecordsLoop_shift bad rest tbl 0 1]
      obtain ⟨s, hs⟩ := ih tbl
      exact ⟨s, by simpa using hs⟩
    · rw [insertRecordsLoop_shift bad rest (tbl ++ [r]) 1 0]
      obtain ⟨s, hs⟩ := ih (tbl ++ [r])
      exact ⟨[r] ++ s, by simpa using hs⟩

lemma insertRecordsLoop_length (bad : RawRecord → Bool) (l : List RawRecord) :
    ∀ tbl : List RawRecord,
      (insertRecordsLoop bad tbl 0 0 l).1.length =
        tbl.length + (insertRecordsLoop bad tbl 0 0 l).2.1 := by
  induction l with
  | nil => intro tbl; simp [insertRecordsLoop]
  | cons r rest ih =>
    intro tbl
    simp only [insertRecordsLoop]
    split_ifs with h1 h2
    · exact ih tbl
    · rw [insertRecordsLoop_shift bad rest tbl 0 1]
      simpa using ih tbl
    · rw [insertRecordsLoop_shift bad rest (tbl ++ [r]) 1 0]
      have := ih (tbl ++ [r])
      simp only [List.length_append, List.length_cons, List.length_nil] at this
      simp only [this]
      omega

lemma insertRecordsLoop_counts (bad : RawRecord → Bool) (l : List RawRecord) :
    ∀ tbl : List RawRecord,
      (insertRecordsLoop bad tbl 0 0 l).2.1 + (insertRecordsLoop bad tbl 0 0 l).2.2 =
        (l.filter fun x => !bad x).length := by
  induction l with
  | nil => intro tbl; simp [insertRecordsLoop]
  | cons r rest ih =>
    intro tbl
    simp only [insertRecordsLoop, List.filter_cons]
    by_cases h1 : bad r = true
    · rw [if_pos h1, if_neg (show ¬(!bad r) = true by simp [h1])]
      exact ih tbl
    · have hbr : (!bad r) = true := by simp_all
      rw [if_neg h1, if_pos hbr]
      by_cases h2 : (tbl.any fun q => rawKey q == rawKey r) = true
      · rw [if_pos h2, insertRecordsLoop_shift bad rest tbl 0 (0 + 1)]
        have := ih tbl
        dsimp only
        simp only [List.length_cons]
        omega
      · rw [if_neg h2, insertRecordsLoop_shift bad rest (tbl ++ [r]) (0 + 1) 0]
        have := ih (tbl ++ [r])
        dsimp only
        simp only [List.length_cons]
        omega

/-- C5: batch-insert semantics of `insert_options_data` — a record whose
5-tuple key already exists in the table leaves the table unchanged and
increments the duplicate counter; a record whose insert raises any other
error is skipped without touching the counters; in both cases the rest of
the batch is still processed; the table only ever grows by appended rows;
and the returned pair is (rows actually inserted, duplicates). -/
theorem c5_insert_options_data (bad : RawRecord → Bool)
    (tbl : List RawRecord) (l : List RawRecord) (r rb : RawRecord)
    (hdup : tbl.any (fun q => rawKey q == rawKey r) = true)
    (hr : bad r = false) (hb : bad rb = true) :
    insertOptionsData bad tbl (r :: l) =
      ((insertOptionsData bad tbl l).1, (insertOptionsData bad tbl l).2.1,
        1 + (insertOptionsData bad tbl l).2.2) ∧
    insertOptionsData bad tbl (rb :: l) = insertOptionsData bad tbl l ∧
    (∃ s, (insertOptionsData bad tbl l).1 = tbl ++ s) ∧
    (insertOptionsData bad tbl l).1.length =
      tbl.length + (insertOptionsData bad tbl l).2.1 ∧
    (insertOptionsData bad tbl l).2.1 + (insertOptionsData bad tbl l).2.2 =
      (l.filter fun x => !bad x).length := by
  have hins : insertOptionsData bad tbl l = insertRecordsLoop bad tbl 0 0 l := by
    cases l with
    | nil => simp [insertOptionsData, insertRecordsLoop]
    | cons x xs => simp [insertOptionsData]
  refine ⟨?_, ?_, ?_, ?_, ?_⟩
  · have h0 : insertOptionsData bad tbl (r :: l) =
        insertRecordsLoop bad tbl 0 0 (r :: l) := by
      simp [insertOptionsData]
    have hL : insertOptionsData bad tbl (r :: l) =
        insertRecordsLoop bad tbl 0 (0 + 1) l := by
      rw [h0]
      simp only [insertRecordsLoop]
      rw [if_neg (show ¬bad r = true by simp [hr]), if_pos hdup]
    rw [hL, insertRecordsLoop_shift bad l tbl 0 (0 + 1), hins]
    simp only [Prod.mk.injEq]
    exact ⟨trivial, Nat.zero_add _, trivial⟩
  · have h0 : insertOptionsData bad tbl (rb :: l) =
        insertRecordsLoop bad tbl 0 0 (rb :: l) := by
      simp [insertOptionsData]
    rw [h0]
    simp only [insertRecordsLoop]
    rw [if_pos hb, hins]
  · rw [hins]; exact insertRecordsLoop_extends bad l tbl
  · rw [hins]; exact insertRecordsLoop_length bad l tbl
  · rw [hins]; exact insertRecordsLoop_counts bad l tbl

/-- A record carrying `plainCall`'s 5-tuple key with a different payload:
re-inserting it must be a duplicate, not an overwrite. -/
def plainCallAgain : RawRecord := { plainCall with open_interest := some 99 }

/-- A malformed record (its insert raises a non-integrity error). -/
def malformedRecord : RawRecord := { blankRecord with symbol := "BAD" }

/-- A fresh, well-formed record with a new strike. -/
def freshRecord : RawRecord := { blankRecord with strike_price := 600 }

/-- C5 witness: against a table already holding `plainCall`, re-inserting
its key is a counted duplicate, a malformed record is skipped, and the
remaining batch `[freshRecord]` is still processed. -/
theorem c5_insert_options_data_witness :
    insertOptionsData (fun x => x.symbol == "BAD") [plainCall]
        (plainCallAgain :: [freshRecord]) =
      ((insertOptionsData (fun x => x.symbol == "BAD") [plainCall] [freshRecord]).1,
        (insertOptionsData (fun x => x.symbol == "BAD") [plainCall] [freshRecord]).2.1,
        1 + (insertOptionsData (fun x => x.symbol == "BAD") [plainCall]
          [freshRecord]).2.2) ∧
    insertOptionsData (fun x => x.symbol == "BAD") [plainCall]
        (malformedRecord :: [freshRecord]) =
      insertOptionsData (fun x => x.symbol == "BAD") [plainCall] [freshRecord] ∧
    (∃ s, (insertOptionsData (fun x => x.symbol == "BAD") [plainCall]
        [freshRecord]).1 = [plainCall] ++ s) ∧
    (insertOptionsData (fun x => x.symbol == "BAD") [plainCall]
        [freshRecord]).1.length =
      [plainCall].length + (insertOptionsData (fun x => x.symbol == "BAD")
        [plainCall] [freshRecord]).2.1 ∧
    (insertOptionsData (fun x => x.symbol == "BAD") [plainCall]
          [freshRecord]).2.1 +
        (insertOptionsData (fun x => x.symbol == "BAD") [plainCall]
          [freshRecord]).2.2 =
      ([freshRecord].filter fun x => !(x.symbol == "BAD")).length :=
  c5_insert_options_data (fun x => x.symbol == "BAD") [plainCall] [freshRecord]
    plainCallAgain malformedRecord (by decide) (by decide) (by decide)

/-!
## C9: backfill coverage and idempotence
-/

lemma mem_storeAggTs_self (agg : List ℤ) (t : ℤ) : t ∈ storeAggTs agg t := by
  simp only [storeAggTs]
  split_ifs with h
  · exact h
  · simp

lemma mem_storeAggTs_of_mem (agg : List ℤ) (t x : ℤ) (h : x ∈ agg) :
    x ∈ storeAggTs agg t := by
  simp only [storeAggTs]
  split_ifs
  · exact h
  · simp [h]

lemma processSymbolDate_mono (outcome : ℤ → TsOutcome) (ts : List ℤ) :
    ∀ (agg : List ℤ) (x : ℤ), x ∈ agg →
      x ∈ (processSymbolDate outcome agg ts).1 := by
  induction ts with
  | nil => intro agg x h; exact h
  | cons t ts ih =>
    intro agg x h
    simp only [processSymbolDate]
    cases outcome t
    · exact ih (storeAggTs agg t) x (mem_storeAggTs_of_mem agg t x h)
    · exact ih agg x h
    · exact ih agg x h

lemma processSymbolDate_ok_mem (outcome : ℤ → TsOutcome) (ts : List ℤ) :
    ∀ (agg : List ℤ) (t : ℤ), t ∈ ts → outcome t = .ok →
      t ∈ (processSymbolDate outcome agg ts).1 := by
  induction ts with
  | nil => intro agg t h; exact absurd h (List.not_mem_nil t)
  | cons t2 ts ih =>
    intro agg t h hok
    rcases List.mem_cons.mp h with h1 | h2
    · subst h1
      simp only [processSymbolDate, hok]
      exact processSymbolDate_mono outcome ts (storeAggTs agg t) t
        (mem_storeAggTs_self agg t)
    · simp only [processSymbolDate]
      cases outcome t2
      · exact ih (storeAggTs agg t2) t h2 hok
      · exact ih agg t h2 hok
      · exact ih agg t h2 hok

lemma processSymbolDate_counts (outcome : ℤ → TsOutcome) (ts : List ℤ) :
    ∀ agg : List ℤ,
      (processSymbolDate outcome agg ts).2.1 +
        (processSymbolDate outcome agg ts).2.2 = ts.length := by
  induction ts with
  | nil => intro agg; rfl
  | cons t ts ih =>
    intro agg
    simp only [processSymbolDate, List.length_cons]
    cases outcome t <;> dsimp only <;>
      [rw [← ih (storeAggTs agg t)]; rw [← ih agg]; rw [← ih agg]] <;> omega

/-- Raw timestamps 1 and 2 exist, but only timestamp 1 is aggregated. -/
def partialState : BackfillState := { rawTs := [1, 2], aggTs := [1] }

/-- A `calculate_and_store_aggregation` stub that always succeeds. -/
def alwaysOk : ℤ → TsOutcome := fun _ => .ok

/-- C9, counterexample: timestamp 2 has raw data and no aggregate row, so
the claim requires the driver to aggregate it — but because the date already
has one aggregate record (`existing_count > 0`), the driver skips the whole
(symbol, date) and stores nothing for timestamp 2, even though every
aggregation call would succeed. -/
theorem c9_backfill_counterexample :
    (2 : ℤ) ∈ partialState.rawTs ∧ (2 : ℤ) ∉ partialState.aggTs ∧
    backfillDate alwaysOk partialState = (partialState, 0, 0) ∧
    (2 : ℤ) ∉ (backfillDate alwaysOk partialState).1.aggTs := by
  refine ⟨by decide, by decide, by decide, by decide⟩

/-- C9, amended: for a (symbol, date) with raw timestamps and NO existing
aggregate rows, the driver attempts every raw timestamp — each successfully
aggregated timestamp lands in the aggregate table, and successes plus
failures account for every timestamp, so one failure never stops the rest;
a (symbol, date) that already has ANY aggregate rows is skipped entirely,
which is what makes re-running an already-aggregated combination store
nothing. -/
theorem c9_backfill (outcome : ℤ → TsOutcome) (st st2 : BackfillState)
    (h1 : st.aggTs = []) (h2 : st2.aggTs ≠ []) :
    (∀ t ∈ st.rawTs, outcome t = .ok →
      t ∈ (backfillDate outcome st).1.aggTs) ∧
    (backfillDate outcome st).2.1 + (backfillDate outcome st).2.2 =
      st.rawTs.length ∧
    backfillDate outcome st2 = (st2, 0, 0) := by
  have hskip : backfillDate outcome st2 = (st2, 0, 0) := by
    simp only [backfillDate]
    split_ifs with hempty hcount
    · rfl
    · rfl
    · exact absurd (List.length_pos.mpr h2) hcount
  by_cases hraw : st.rawTs.isEmpty = true
  · have hnil : st.rawTs = [] := List.isEmpty_iff.mp hraw
    refine ⟨?_, ?_, hskip⟩
    · intro t ht; rw [hnil] at ht; exact absurd ht (List.not_mem_nil t)
    · simp [backfillDate, hraw, hnil]
  · have hrun : backfillDate outcome st =
        ({ st with aggTs := (processSymbolDate outcome st.aggTs st.rawTs).1 },
          (processSymbolDate outcome st.aggTs st.rawTs).2.1,
          (processSymbolDate outcome st.aggTs st.rawTs).2.2) := by
      simp [backfillDate, hraw, h1]
    refine ⟨?_, ?_, hskip⟩
    · intro t ht hok
      rw [hrun]
      exact processSymbolDate_ok_mem outcome st.rawTs st.aggTs t ht hok
    · rw [hrun]
      exact processSymbolDate_counts outcome st.rawTs st.aggTs

/-- Fresh work unit: two raw timestamps, nothing aggregated yet. -/
def freshState : BackfillState := { rawTs := [5, 6], aggTs := [] }

/-- An aggregation stub that succeeds at timestamp 5 and fails at 6. -/
def mixedOutcome : ℤ → TsOutcome := fun t => if t = 5 then .ok else .failed

/-- C9 witness: on `freshState` with one success and one failure, timestamp
5 is aggregated, both timestamps are accounted for, and the
partially-aggregated `partialState` is skipped unchanged. -/
theorem c9_backfill_witness :
    ((5 : ℤ) ∈ (backfillDate mixedOutcome freshState).1.aggTs) ∧
    (backfillDate mixedOutcome freshState).2.1 +
      (backfillDate mixedOutcome freshState).2.2 = 2 ∧
    backfillDate mixedOutcome partialState = (partialState, 0, 0) := by
  have h := c9_backfill mixedOutcome freshState partialState rfl (by decide)
  exact ⟨h.1 5 (by decide) rfl, h.2.1, h.2.2⟩

end SchwabStreaming
